import Mathlib

/-!
Verification development for the EpaperAutomation newspaper article
segmentation engine.  The definitions below are a shallow embedding of the
region-detection code:

* `src/engine/article_segmenter.py` — the metadata-based strategy
  (`NewspaperArticleSegmenter`): per-candidate filtering of embedded image
  objects and detected tables, margin clamping, area-ratio bounds,
  edge-proximity page-coverage rejection, per-page relabeling, and the
  per-page error recovery of `process_pdf`.
* `src/engine/phase_1.py` — the pixel-based strategy (`ArticleExtractor`):
  contour filtering (`_detect_articles_with_technique`), containment
  suppression, the one-sided overlap test (`_rects_overlap`) and the
  consensus merge of the adaptive and canny techniques.
* `src/src/region_detection/detector.py` — `RegionDetector.__init__` and its
  `value or default` handling of constructor arguments.

Python floats are modelled as rationals; calls into the external libraries
pdfplumber and OpenCV are modelled as structured inputs carrying exactly the
values the code reads back from those libraries.
-/

namespace EpaperAutomation

/-- An axis-aligned rectangle `[x0, y0, x1, y1]` in page coordinates, as used
throughout `article_segmenter.py` for candidate boxes, region boxes and the
page rectangle. -/
structure Box where
  x0 : ℚ
  y0 : ℚ
  x1 : ℚ
  y1 : ℚ
deriving DecidableEq, Repr

/-- An embedded image object as reported by pdfplumber (`page.images`): the
code reads the fields `x0`, `top`, `width` and `height`
(`article_segmenter.py` lines 210-212). -/
structure ImgObj where
  x0 : ℚ
  top : ℚ
  width : ℚ
  height : ℚ
deriving DecidableEq, Repr

/-- A pdfplumber page, restricted to the data `_extract_article_regions`
reads: dimensions, the 1-based `page_number`, the embedded image objects and
the bounding boxes of the detected tables (`page.find_tables()`). -/
structure Page where
  width : ℚ
  height : ℚ
  page_number : ℕ
  images : List ImgObj
  tables : List Box
deriving DecidableEq, Repr

/-- The region dictionary built by `_extract_article_regions`
(`article_segmenter.py` lines 240-248 and 294-300). -/
structure Region where
  score : ℚ
  label : String
  box : Box
  original_box : Box
  url : String
deriving DecidableEq, Repr

/-- The configuration stored by `NewspaperArticleSegmenter.__init__`
(`article_segmenter.py` lines 43-49); the output/temp directories play no
role in the region geometry and are omitted. -/
structure SegmenterConfig where
  min_area_ratio : ℚ
  max_area_ratio : ℚ
  first_page_margin_percent : ℚ
  other_pages_margin_percent : ℚ
  date : String
deriving DecidableEq, Repr

/-- `NewspaperArticleSegmenter.__init__` (`article_segmenter.py` lines
18-50): it only stores its arguments; the body contains no validation of the
area-ratio bounds, so construction never fails for any combination of
numeric parameters. -/
def mkNewspaperArticleSegmenter (min_area_ratio max_area_ratio
    first_page_margin_percent other_pages_margin_percent : ℚ)
    (date : String) : SegmenterConfig :=
  { min_area_ratio := min_area_ratio
    max_area_ratio := max_area_ratio
    first_page_margin_percent := first_page_margin_percent
    other_pages_margin_percent := other_pages_margin_percent
    date := date }

/-- The constructor defaults of `NewspaperArticleSegmenter`
(`article_segmenter.py` lines 21-24): `min_area_ratio = 0.01`,
`max_area_ratio = 0.85`, `first_page_margin_percent = 14.5`,
`other_pages_margin_percent = 8.5`. -/
def defaultSegmenterConfig (date : String) : SegmenterConfig :=
  mkNewspaperArticleSegmenter (1/100) (17/20) (29/2) (17/2) date

/-- `self.s3_base_url` (`article_segmenter.py` line 50). -/
def s3_base_url : String :=
  "https://epaper-article-db.s3.ap-south-1.amazonaws.com/epaper-articles"

/-- Python's `date.replace("-", "")`: drop every dash character. -/
def stripDashes (s : String) : String :=
  (s.toList.filter (fun c => c != '-')).asString

/-- `_generate_article_url` (`article_segmenter.py` lines 52-66):
`{base}/{year}/{yyyymmdd}/page{page_num}-article{article_num}.jpg`, where
`year` is the first four characters of the date and `yyyymmdd` is the date
with dashes removed. -/
def generate_article_url (cfg : SegmenterConfig) (page_num article_num : ℕ) :
    String :=
  s3_base_url ++ "/" ++ (cfg.date.toList.take 4).asString ++ "/" ++
    stripDashes cfg.date ++ "/page" ++ toString page_num ++ "-article" ++
    toString article_num ++ ".jpg"

/-- `_calculate_page_coverage` (`article_segmenter.py` lines 325-351): the
normalized absolute distance of each region edge to the corresponding page
edge, averaged over the four edges, subtracted from 1. -/
def calculate_page_coverage (region_box page_box : Box) : ℚ :=
  let left_edge_proximity := |region_box.x0 - page_box.x0| / (page_box.x1 - page_box.x0)
  let right_edge_proximity := |region_box.x1 - page_box.x1| / (page_box.x1 - page_box.x0)
  let top_edge_proximity := |region_box.y0 - page_box.y0| / (page_box.y1 - page_box.y0)
  let bottom_edge_proximity := |region_box.y1 - page_box.y1| / (page_box.y1 - page_box.y0)
  let avg_edge_proximity := (left_edge_proximity + right_edge_proximity +
    top_edge_proximity + bottom_edge_proximity) / 4
  1 - avg_edge_proximity

/-- The margin clamp applied to a candidate that straddles the top margin
(`article_segmenter.py` lines 219-220 for images and 276-277 for tables):
`if y0 < top_margin: y0 = top_margin`. -/
def clamp_y0 (y0 top_margin : ℚ) : ℚ :=
  if y0 < top_margin then top_margin else y0

theorem clamp_y0_of_lt {y0 top_margin : ℚ} (h : y0 < top_margin) :
    clamp_y0 y0 top_margin = top_margin := if_pos h

theorem clamp_y0_of_not_lt {y0 top_margin : ℚ} (h : ¬ y0 < top_margin) :
    clamp_y0 y0 top_margin = y0 := if_neg h

/-- One iteration of the image loop of `_extract_article_regions`
(`article_segmenter.py` lines 208-249): top-margin filter, clamp of a
straddling candidate, area-ratio filter, page-coverage filter, and the
construction of the region dictionary.  `i` is the 0-based enumeration index
of the image object. -/
def image_candidate_region (cfg : SegmenterConfig) (page : Page)
    (top_margin : ℚ) (i : ℕ) (img : ImgObj) : Option Region :=
  let x0 := img.x0
  let y0 := img.top
  let x1 := x0 + img.width
  let y1 := y0 + img.height
  if y1 ≤ top_margin then none
  else
    let y0 := clamp_y0 y0 top_margin
    let area := (x1 - x0) * (y1 - y0)
    let page_area := page.width * page.height
    let area_ratio := area / page_area
    if area_ratio < cfg.min_area_ratio ∨ area_ratio > cfg.max_area_ratio then none
    else
      let page_coverage := calculate_page_coverage ⟨x0, y0, x1, y1⟩
        ⟨0, 0, page.width, page.height⟩
      if page_coverage > 9/10 then none
      else some
        { score := 1
          label := "article_" ++ toString i
          box := ⟨x0, y0, x1, y1⟩
          original_box := ⟨img.x0, img.top, img.x0 + img.width, img.top + img.height⟩
          url := generate_article_url cfg (page.page_number + 1) (i + 1) }

/-- One iteration of the table loop of `_extract_article_regions`
(`article_segmenter.py` lines 268-301).  Note that the code clamps the local
variable `y0` before building the dictionary, and then uses the clamped
`y0` for `original_box` as well (lines 297-298), so a table region's
`original_box` equals its clamped `box`. -/
def table_candidate_region (cfg : SegmenterConfig) (page : Page)
    (top_margin : ℚ) (num_images : ℕ) (i : ℕ) (t : Box) : Option Region :=
  let x0 := t.x0
  let y0 := t.y0
  let x1 := t.x1
  let y1 := t.y1
  if y1 ≤ top_margin then none
  else
    let y0 := clamp_y0 y0 top_margin
    let area := (x1 - x0) * (y1 - y0)
    let page_area := page.width * page.height
    let area_ratio := area / page_area
    if area_ratio < cfg.min_area_ratio ∨ area_ratio > cfg.max_area_ratio then none
    else
      let page_coverage := calculate_page_coverage ⟨x0, y0, x1, y1⟩
        ⟨0, 0, page.width, page.height⟩
      if page_coverage > 9/10 then none
      else some
        { score := 9/10
          label := "table_article_" ++ toString i
          box := ⟨x0, y0, x1, y1⟩
          original_box := ⟨x0, y0, x1, y1⟩
          url := generate_article_url cfg (page.page_number + 1) (num_images + i + 1) }

/-- `_extract_article_regions` (`article_segmenter.py` lines 173-323): the
top margin is the configured percentage of the page height (line 199); the
image loop runs first and the table loop appends to the same list. -/
def extract_article_regions (cfg : SegmenterConfig) (page : Page)
    (is_first_page : Bool) : List Region :=
  let margin_percent := if is_first_page then cfg.first_page_margin_percent
    else cfg.other_pages_margin_percent
  let top_margin := page.height * (margin_percent / 100)
  (page.images.enum.filterMap
      (fun p => image_candidate_region cfg page top_margin p.1 p.2)) ++
    (page.tables.enum.filterMap
      (fun p => table_candidate_region cfg page top_margin page.images.length p.1 p.2))

/-- The relabeling loop of `process_pdf` (`article_segmenter.py` lines
110-113): each region of a page is renumbered by its 0-based position `i` in
the page's region list, receiving label `article_{i+1}` and a url built from
the 1-based page number and `i+1`.  The counter restarts at 1 on every
page because the loop enumerates each page's list from scratch. -/
def relabel_regions (cfg : SegmenterConfig) (page_num : ℕ)
    (regions : List Region) : List Region :=
  regions.enum.map (fun p =>
    { p.2 with
      label := "article_" ++ toString (p.1 + 1)
      url := generate_article_url cfg (page_num + 1) (p.1 + 1) })

/-- What `process_pdf` emits for one page: either the original page content
with the brightness overlay, the visualization and one link per region
(the `try` branch, `article_segmenter.py` lines 95-158), or the original
page content unmodified, with no overlay and no links (the `except` branch,
lines 160-163). -/
inductive PageOutput where
  | processed (regions : List Region) : PageOutput
  | passthrough : PageOutput
deriving DecidableEq, Repr

/-- The body of the page loop of `process_pdf` (`article_segmenter.py` lines
91-163).  `load` models the pdfplumber access to, and parse of, page
`page_num` inside the `try` block; any exception raised while building the
page's region list takes the `except` branch, which inserts the original
page unchanged.  The first page (`page_num = 0`) uses the first-page
margin (line 107). -/
def process_page (cfg : SegmenterConfig) (load : ℕ → Except String Page)
    (page_num : ℕ) : PageOutput :=
  match load page_num with
  | .ok page => .processed (relabel_regions cfg page_num
      (extract_article_regions cfg page (page_num == 0)))
  | .error _ => .passthrough

/-- The page loop of `process_pdf` (`article_segmenter.py` lines 91-163):
every page of the document produces exactly one output page, independently
of failures on other pages. -/
def process_pdf (cfg : SegmenterConfig) (load : ℕ → Except String Page)
    (num_pages : ℕ) : List PageOutput :=
  (List.range num_pages).map (process_page cfg load)

/-- A contour as consumed by `_detect_articles_with_technique`
(`phase_1.py` lines 72-111), carrying exactly the measurements the code
reads from OpenCV: `cv2.contourArea` (`area`), `cv2.arcLength`
(`perimeter`), `cv2.boundingRect` (`x`, `y`, `w`, `h`) and the parent index
`hierarchy[idx][3]` (`parent`, `-1` for an outermost contour). -/
structure Contour where
  area : ℚ
  perimeter : ℚ
  x : ℤ
  y : ℤ
  w : ℤ
  h : ℤ
  parent : ℤ
deriving DecidableEq, Repr

/-- The contour filter of `_detect_articles_with_technique` (`phase_1.py`
lines 73-92): keep outermost contours with contour area in
`[30000, 0.9 * imageArea]`, perimeter at least 500 and bounding-rectangle
aspect ratio `w/h` in `[0.2, 5.0]`.  `img_w` and `img_h` are
`gray.shape[1]` and `gray.shape[0]`. -/
def closed_contour_filter (img_w img_h : ℤ) (c : Contour) : Bool :=
  decide (c.parent = -1) &&
  !(decide (c.area < 30000) || decide (c.area > ((img_w * img_h : ℤ) : ℚ) * (9/10))) &&
  !(decide (c.perimeter < 500)) &&
  !(decide ((c.w : ℚ) / (c.h : ℚ) < 1/5) || decide ((c.w : ℚ) / (c.h : ℚ) > 5))

/-- The strict-containment test of the suppression loop (`phase_1.py` line
106): candidate `a` is strictly inside `b` on all four sides. -/
def strictly_inside (a b : Contour) : Bool :=
  decide (a.x > b.x) && decide (a.y > b.y) &&
  decide (a.x + a.w < b.x + b.w) && decide (a.y + a.h < b.y + b.h)

/-- The containment-suppression loop of `_detect_articles_with_technique`
(`phase_1.py` lines 99-110): candidate `i` is dropped when some candidate at
a different index `j` of the same list strictly contains it. -/
def filter_contained_rects (rects : List Contour) : List Contour :=
  (rects.enum.filter (fun p =>
    !(rects.enum.any (fun q => decide (q.1 ≠ p.1) && strictly_inside p.2 q.2)))).map
    Prod.snd

/-- `_detect_articles_with_technique` (`phase_1.py` lines 51-111), from the
point where OpenCV has produced the contours: the contour filter, the
top-margin filter `y < ignore_height` (line 96, which drops—rather than
clamps—any rectangle whose top edge is above the margin), and containment
suppression. -/
def detect_articles_with_technique (contours : List Contour)
    (img_w img_h ignore_height : ℤ) : List Contour :=
  let closed_contours := contours.filter (closed_contour_filter img_w img_h)
  let rects := closed_contours.filter (fun c => !(decide (c.y < ignore_height)))
  filter_contained_rects rects

/-- The intersection area computed by `_rects_overlap` (`phase_1.py` lines
116-120). -/
def inter_area (r1 r2 : Contour) : ℤ :=
  max 0 (min (r1.x + r1.w) (r2.x + r2.w) - max r1.x r2.x) *
    max 0 (min (r1.y + r1.h) (r2.y + r2.h) - max r1.y r2.y)

/-- `_rects_overlap` (`phase_1.py` lines 113-127) with the default threshold
`0.5`: true when the intersection area exceeds half of either rectangle's
area; rectangles of zero area never overlap. -/
def rects_overlap (r1 r2 : Contour) : Bool :=
  let area1 := r1.w * r1.h
  let area2 := r2.w * r2.h
  if area1 = 0 ∨ area2 = 0 then false
  else decide (((inter_area r1 r2 : ℤ) : ℚ) / ((area1 : ℤ) : ℚ) > 1/2) ||
    decide (((inter_area r1 r2 : ℤ) : ℚ) / ((area2 : ℤ) : ℚ) > 1/2)

/-- One step of the consensus merge of `detect_and_extract_articles`
(`phase_1.py` lines 203-205): a secondary-technique candidate is appended
only when it overlaps none of the boxes accepted so far. -/
def merge_step (merged : List Contour) (c_rect : Contour) : List Contour :=
  if merged.any (fun a_rect => rects_overlap c_rect a_rect) then merged
  else merged ++ [c_rect]

/-- The consensus merge (`phase_1.py` lines 201-205): the merged set starts
as the adaptive (primary) rectangles and each canny (secondary) rectangle is
considered in turn against the current merged set. -/
def merge_rects (adaptive_rects canny_rects : List Contour) : List Contour :=
  canny_rects.foldl merge_step adaptive_rects

/-- The configuration stored by `RegionDetector.__init__`
(`src/src/region_detection/detector.py` lines 95-107). -/
structure RegionDetectorConfig where
  min_area : ℤ
  margin : ℤ
deriving DecidableEq, Repr

/-- `settings.REGION_DETECTION["min_area"]` (`src/src/config/settings.py`
line 24). -/
def region_detection_default_min_area : ℤ := 1000

/-- `settings.REGION_DETECTION["margin"]` (`src/src/config/settings.py`
line 25). -/
def region_detection_default_margin : ℤ := 10

/-- Python's `value or default` on an optional integer argument: `None` and
`0` are falsy and yield the default; every other integer is returned
unchanged. -/
def py_or_int (value : Option ℤ) (default : ℤ) : ℤ :=
  match value with
  | none => default
  | some v => if v = 0 then default else v

/-- `RegionDetector.__init__` (`detector.py` lines 95-107):
`self.min_area = min_area or settings.REGION_DETECTION["min_area"]` and
`self.margin = margin or settings.REGION_DETECTION["margin"]`. -/
def region_detector_new (min_area margin : Option ℤ) : RegionDetectorConfig :=
  { min_area := py_or_int min_area region_detection_default_min_area
    margin := py_or_int margin region_detection_default_margin }

/-! ## Helper lemmas -/

theorem snd_mem_of_mem_enum {α : Type} {l : List α} {p : ℕ × α}
    (h : p ∈ l.enum) : p.2 ∈ l := by
  have h2 : p.2 ∈ l.enum.map Prod.snd := List.mem_map_of_mem Prod.snd h
  simpa [List.enum_map_snd] using h2

theorem strictly_inside_irrefl (a : Contour) : strictly_inside a a = false := by
  simp [strictly_inside]

theorem any_other_index_eq_any (rects : List Contour) (i : ℕ) (a : Contour)
    (ha : (i, a) ∈ rects.enum) :
    (rects.enum.any (fun q => decide (q.1 ≠ i) && strictly_inside a q.2)) =
      rects.any (fun s => strictly_inside a s) := by
  rw [Bool.eq_iff_iff]
  simp only [List.any_eq_true, Bool.and_eq_true, decide_eq_true_eq]
  constructor
  · rintro ⟨q, hq, _, hins⟩
    exact ⟨q.2, snd_mem_of_mem_enum hq, hins⟩
  · rintro ⟨s, hs, hins⟩
    have hs' : s ∈ rects.enum.map Prod.snd := by
      rw [List.enum_map_snd]; exact hs
    obtain ⟨q, hq, hqs⟩ := List.mem_map.mp hs'
    refine ⟨q, hq, ?_, hqs ▸ hins⟩
    intro hqi
    have h1 : rects[i]? = some a := List.mk_mem_enum_iff_getElem?.mp ha
    have h2 : rects[i]? = some s := by
      have : (i, s) ∈ rects.enum := by
        have : q = (i, s) := by
          rcases q with ⟨q1, q2⟩
          simp_all
        exact this ▸ hq
      exact List.mk_mem_enum_iff_getElem?.mp this
    have hsa : a = s := by
      rw [h1] at h2
      exact Option.some.inj h2
    rw [← hsa] at hins
    rw [strictly_inside_irrefl] at hins
    exact Bool.false_ne_true hins

theorem filter_contained_rects_eq (rects : List Contour) :
    filter_contained_rects rects =
      rects.filter (fun r => !(rects.any (fun s => strictly_inside r s))) := by
  rw [filter_contained_rects]
  have h1 : rects.enum.filter
        (fun p => !(rects.enum.any (fun q => decide (q.1 ≠ p.1) && strictly_inside p.2 q.2)))
      = rects.enum.filter (fun p => !(rects.any (fun s => strictly_inside p.2 s))) := by
    apply List.filter_congr
    intro p hp
    have hp2 : (p.1, p.2) ∈ rects.enum := by rcases p with ⟨p1, p2⟩; exact hp
    rw [any_other_index_eq_any rects p.1 p.2 hp2]
  rw [h1]
  have h2 : (rects.enum.filter (fun p => !(rects.any (fun s => strictly_inside p.2 s))))
      = rects.enum.filter
          ((fun r => !(rects.any (fun s => strictly_inside r s))) ∘ Prod.snd) := rfl
  rw [h2, ← List.filter_map, List.enum_map_snd]

theorem mem_of_mem_filter_contained {rects : List Contour} {c : Contour}
    (h : c ∈ filter_contained_rects rects) : c ∈ rects := by
  rw [filter_contained_rects_eq] at h
  exact List.mem_of_mem_filter h

theorem mem_detect_props {contours : List Contour} {img_w img_h ignore_height : ℤ}
    {c : Contour}
    (hc : c ∈ detect_articles_with_technique contours img_w img_h ignore_height) :
    c ∈ contours ∧ closed_contour_filter img_w img_h c = true ∧ ignore_height ≤ c.y := by
  simp only [detect_articles_with_technique] at hc
  have h1 := mem_of_mem_filter_contained hc
  obtain ⟨h2, h3⟩ := List.mem_filter.mp h1
  obtain ⟨h4, h5⟩ := List.mem_filter.mp h2
  refine ⟨h4, h5, ?_⟩
  have h6 : ¬ (c.y < ignore_height) := by simpa using h3
  omega

/-! ## C10 — falsy constructor arguments of RegionDetector -/

/-- C10: `RegionDetector.__init__` evaluates `min_area or default` and
`margin or default`, so the explicit arguments `min_area=0` and `margin=0`
are falsy and silently fall back to the module defaults `min_area=1000`,
`margin=10`, exactly as passing `None` does; consequently no choice of
constructor arguments yields a detector with a zero minimum area or a zero
margin. -/
theorem c10_region_detector_falsy_defaults :
    region_detector_new (some 0) (some 0) = { min_area := 1000, margin := 10 } ∧
    region_detector_new none none = { min_area := 1000, margin := 10 } ∧
    (∀ min_area margin : Option ℤ,
      (region_detector_new min_area margin).min_area ≠ 0 ∧
      (region_detector_new min_area margin).margin ≠ 0) := by
  refine ⟨rfl, rfl, fun ma mg => ⟨?_, ?_⟩⟩
  · show py_or_int ma region_detection_default_min_area ≠ 0
    rcases ma with _ | v
    · decide
    · by_cases hv : v = 0
      · subst hv; decide
      · simp [py_or_int, hv]
  · show py_or_int mg region_detection_default_margin ≠ 0
    rcases mg with _ | v
    · decide
    · by_cases hv : v = 0
      · subst hv; decide
      · simp [py_or_int, hv]

/-! ## C7 — containment suppression -/

/-- C7: in containment suppression over one technique's candidates, a
candidate is removed exactly when some other entry of the same list strictly
contains it on all four sides; two candidates with identical boxes are both
retained; and no survivor is strictly contained in another survivor. -/
theorem c7_containment_suppression (rects : List Contour) :
    (filter_contained_rects rects =
      rects.filter (fun r => !(rects.any (fun s => strictly_inside r s)))) ∧
    (∀ c d : Contour, c.x = d.x → c.y = d.y → c.w = d.w → c.h = d.h →
      filter_contained_rects [c, d] = [c, d]) ∧
    (∀ r ∈ filter_contained_rects rects, ∀ s ∈ filter_contained_rects rects,
      strictly_inside r s = false) := by
  refine ⟨filter_contained_rects_eq rects, ?_, ?_⟩
  · intro c d hx hy hw hh
    have hcd : strictly_inside c d = false := by
      simp [strictly_inside, hx, hy, hw, hh]
    have hdc : strictly_inside d c = false := by
      simp [strictly_inside, hx, hy, hw, hh]
    rw [filter_contained_rects_eq]
    simp [hcd, hdc, strictly_inside_irrefl]
  · intro r hr s hs
    rw [filter_contained_rects_eq] at hr hs
    obtain ⟨hr1, hr2⟩ := List.mem_filter.mp hr
    have hs1 : s ∈ rects := List.mem_of_mem_filter hs
    have hany : rects.any (fun s => strictly_inside r s) = false := by
      simpa using hr2
    simpa using List.any_eq_false.mp hany s hs1

/-- Witness for C7: two candidates with identical bounding rectangles (and
different contour measurements) are both retained. -/
theorem c7_containment_suppression_witness :
    filter_contained_rects
      [⟨40000, 800, 10, 200, 300, 300, -1⟩, ⟨50000, 900, 10, 200, 300, 300, -1⟩] =
      [⟨40000, 800, 10, 200, 300, 300, -1⟩, ⟨50000, 900, 10, 200, 300, 300, -1⟩] :=
  (c7_containment_suppression
    [⟨40000, 800, 10, 200, 300, 300, -1⟩, ⟨50000, 900, 10, 200, 300, 300, -1⟩]).2.1
    ⟨40000, 800, 10, 200, 300, 300, -1⟩ ⟨50000, 900, 10, 200, 300, 300, -1⟩
    rfl rfl rfl rfl

/-! ## C1 — the area-ratio filter is not uniform across strategies -/

/-- The single contour of the C1 counterexample: an L-shaped outermost
contour on a 1000 by 1000 pixel page (contour area 36700, perimeter 3710)
whose bounding rectangle `(0, 145, 1000, 855)` covers 85.5 percent of the
page. -/
def c1_contour : Contour :=
  { area := 36700, perimeter := 3710, x := 0, y := 145, w := 1000, h := 855, parent := -1 }

/-- Counterexample to C1: the pixel-based strategy
(`_detect_articles_with_technique`) filters the *contour* area against
`[30000, 0.9 * pageArea]` and never checks the bounding box's area ratio
against `[minAreaRatio, maxAreaRatio]`: this contour passes every filter and
is emitted although its box area ratio is `0.855 > 0.85 = maxAreaRatio`. -/
theorem c1_counterexample :
    c1_contour ∈ detect_articles_with_technique [c1_contour] 1000 1000 145 ∧
    ¬ (((c1_contour.w * c1_contour.h : ℤ) : ℚ) / ((1000 * 1000 : ℤ) : ℚ) ≤ 17/20) := by
  constructor
  · norm_num [detect_articles_with_technique, closed_contour_filter, filter_contained_rects,
      strictly_inside, List.enum, List.enumFrom, c1_contour]
  · norm_num [c1_contour]

/-! ## C2 — table regions do not preserve the unclamped original box -/

/-- Counterexample to C2: a table candidate `[0,100,200,300]` on a
1000 by 1000 first page (topMargin 145) is emitted with `original_box`
equal to the *clamped* rectangle `[0,145,200,300]`, not the unclamped
`[0,100,200,300]` the claim requires, because the table loop of
`_extract_article_regions` builds `original_box` from the already-clamped
local `y0` (`article_segmenter.py` lines 297-298). -/
theorem c2_counterexample :
    ((extract_article_regions (defaultSegmenterConfig "2024-05-01")
        ⟨1000, 1000, 0, [], [⟨0, 100, 200, 300⟩]⟩ true).map Region.original_box
      = [⟨0, 145, 200, 300⟩]) ∧
    ((extract_article_regions (defaultSegmenterConfig "2024-05-01")
        ⟨1000, 1000, 0, [], [⟨0, 100, 200, 300⟩]⟩ true).map Region.original_box
      ≠ [⟨0, 100, 200, 300⟩]) := by
  constructor <;>
    norm_num [extract_article_regions, table_candidate_region, clamp_y0, calculate_page_coverage,
      defaultSegmenterConfig, mkNewspaperArticleSegmenter, List.enum, List.enumFrom,
      List.filterMap_cons]

/-! ## C5 — no startup validation of the area-ratio bounds -/

/-- Counterexample to C5: `NewspaperArticleSegmenter.__init__` contains no
validation, so constructing the engine with
`min_area_ratio = 0.9 > 0.1 = max_area_ratio` succeeds and simply stores the
inverted bounds, and the resulting engine silently filters out a candidate
that the default bounds would have accepted. -/
theorem c5_counterexample :
    (mkNewspaperArticleSegmenter (9/10) (1/10) (29/2) (17/2) "2024-05-01" =
      { min_area_ratio := 9/10, max_area_ratio := 1/10,
        first_page_margin_percent := 29/2, other_pages_margin_percent := 17/2,
        date := "2024-05-01" }) ∧
    (extract_article_regions
      (mkNewspaperArticleSegmenter (9/10) (1/10) (29/2) (17/2) "2024-05-01")
      ⟨1000, 1000, 0, [⟨100, 200, 300, 300⟩], []⟩ true = []) ∧
    (extract_article_regions (defaultSegmenterConfig "2024-05-01")
      ⟨1000, 1000, 0, [⟨100, 200, 300, 300⟩], []⟩ true ≠ []) := by
  refine ⟨rfl, ?_, ?_⟩
  · norm_num [extract_article_regions, image_candidate_region, clamp_y0, calculate_page_coverage,
      mkNewspaperArticleSegmenter, List.enum, List.enumFrom, List.filterMap_cons]
  · norm_num [extract_article_regions, image_candidate_region, clamp_y0, calculate_page_coverage,
      defaultSegmenterConfig, mkNewspaperArticleSegmenter, List.enum, List.enumFrom,
      List.filterMap_cons]

/-- C5 (amended): the misconfiguration `min_area_ratio > max_area_ratio` is
not rejected at construction; instead every candidate of every page fails
the area-ratio filter, so each processed page yields an empty region
list. -/
theorem c5_inverted_bounds_yield_no_regions (cfg : SegmenterConfig)
    (page : Page) (is_first_page : Bool)
    (h : cfg.max_area_ratio < cfg.min_area_ratio) :
    extract_article_regions cfg page is_first_page = [] := by
  have hcond : ∀ q : ℚ, q < cfg.min_area_ratio ∨ q > cfg.max_area_ratio := by
    intro q
    rcases lt_or_le q cfg.min_area_ratio with hq | hq
    · exact Or.inl hq
    · exact Or.inr (lt_of_lt_of_le h hq)
  simp only [extract_article_regions]
  rw [List.append_eq_nil]
  constructor
  · rw [List.filterMap_eq_nil_iff]
    intro p _
    simp only [image_candidate_region, hcond, if_true, ite_self]
  · rw [List.filterMap_eq_nil_iff]
    intro p _
    simp only [table_candidate_region, hcond, if_true, ite_self]

/-- Witness for the amended C5 statement at a concrete misconfigured engine
and a concrete page. -/
theorem c5_inverted_bounds_yield_no_regions_witness :
    extract_article_regions
      (mkNewspaperArticleSegmenter (3/4) (1/4) (29/2) (17/2) "2024-05-01")
      ⟨800, 900, 1, [⟨50, 300, 200, 200⟩], [⟨50, 300, 250, 500⟩]⟩ false = [] :=
  c5_inverted_bounds_yield_no_regions
    (mkNewspaperArticleSegmenter (3/4) (1/4) (29/2) (17/2) "2024-05-01")
    ⟨800, 900, 1, [⟨50, 300, 200, 200⟩], [⟨50, 300, 250, 500⟩]⟩ false
    (by norm_num [mkNewspaperArticleSegmenter])

/-! ## C3 — consensus merge -/

theorem rects_overlap_eq_false_iff (r1 r2 : Contour)
    (h1 : r1.w * r1.h ≠ 0) (h2 : r2.w * r2.h ≠ 0) :
    rects_overlap r1 r2 = false ↔
      ((inter_area r1 r2 : ℤ) : ℚ) / ((r1.w * r1.h : ℤ) : ℚ) ≤ 1/2 ∧
      ((inter_area r1 r2 : ℤ) : ℚ) / ((r2.w * r2.h : ℤ) : ℚ) ≤ 1/2 := by
  simp only [rects_overlap]
  rw [if_neg (not_or.mpr ⟨h1, h2⟩)]
  simp [not_lt]

/-- C3: in the consensus merge, a secondary (canny) candidate is added to the
merged set exactly when, against every box accepted so far, the intersection
area divided by the candidate's area and divided by the accepted box's area
are both at most `0.5`; each merge step either keeps the merged set or
appends the candidate; and for the primary box `A = [100,200,400,500]` and
the secondary box `B = [110,205,390,495]` (mutual overlap above 50 percent)
only `A` survives. -/
theorem c3_consensus_merge (merged : List Contour) (c_rect : Contour)
    (hc : 0 < c_rect.w * c_rect.h) (hm : ∀ a ∈ merged, 0 < a.w * a.h) :
    (merge_step merged c_rect = merged ++ [c_rect] ↔
      ∀ a ∈ merged,
        ((inter_area c_rect a : ℤ) : ℚ) / ((c_rect.w * c_rect.h : ℤ) : ℚ) ≤ 1/2 ∧
        ((inter_area c_rect a : ℤ) : ℚ) / ((a.w * a.h : ℤ) : ℚ) ≤ 1/2) ∧
    (merge_step merged c_rect = merged ∨ merge_step merged c_rect = merged ++ [c_rect]) ∧
    merge_rects [⟨90000, 1200, 100, 200, 300, 300, -1⟩]
        [⟨81200, 1140, 110, 205, 280, 290, -1⟩]
      = [⟨90000, 1200, 100, 200, 300, 300, -1⟩] := by
  have key : (merged.any (fun a_rect => rects_overlap c_rect a_rect) = false) ↔
      (∀ a ∈ merged,
        ((inter_area c_rect a : ℤ) : ℚ) / ((c_rect.w * c_rect.h : ℤ) : ℚ) ≤ 1/2 ∧
        ((inter_area c_rect a : ℤ) : ℚ) / ((a.w * a.h : ℤ) : ℚ) ≤ 1/2) := by
    rw [List.any_eq_false]
    constructor
    · intro hall a ha
      exact (rects_overlap_eq_false_iff c_rect a (ne_of_gt hc)
        (ne_of_gt (hm a ha))).mp (by simpa using hall a ha)
    · intro hall a ha
      simp [(rects_overlap_eq_false_iff c_rect a (ne_of_gt hc)
        (ne_of_gt (hm a ha))).mpr (hall a ha)]
  refine ⟨?_, ?_, ?_⟩
  · cases hb : merged.any (fun a_rect => rects_overlap c_rect a_rect) with
    | false =>
      rw [← key]
      simp [merge_step, hb]
    | true =>
      constructor
      · intro heq
        exfalso
        rw [merge_step, hb] at heq
        have hlen := congrArg List.length heq
        simp at hlen
      · intro hall
        exfalso
        have hfalse := key.mpr hall
        rw [hb] at hfalse
        simp at hfalse
  · cases hb : merged.any (fun a_rect => rects_overlap c_rect a_rect) with
    | false => right; simp [merge_step, hb]
    | true => left; simp [merge_step, hb]
  · norm_num [merge_rects, merge_step, rects_overlap, inter_area]

/-- Witness for C3 at the claim's concrete boxes: the merged set `[A]` and
the secondary candidate `B`. -/
theorem c3_consensus_merge_witness :
    (merge_step [⟨90000, 1200, 100, 200, 300, 300, -1⟩]
        (⟨81200, 1140, 110, 205, 280, 290, -1⟩ : Contour) =
        [⟨90000, 1200, 100, 200, 300, 300, -1⟩] ++
          [⟨81200, 1140, 110, 205, 280, 290, -1⟩] ↔
      ∀ a ∈ [(⟨90000, 1200, 100, 200, 300, 300, -1⟩ : Contour)],
        ((inter_area ⟨81200, 1140, 110, 205, 280, 290, -1⟩ a : ℤ) : ℚ) /
            (((⟨81200, 1140, 110, 205, 280, 290, -1⟩ : Contour).w *
              (⟨81200, 1140, 110, 205, 280, 290, -1⟩ : Contour).h : ℤ) : ℚ) ≤ 1/2 ∧
        ((inter_area ⟨81200, 1140, 110, 205, 280, 290, -1⟩ a : ℤ) : ℚ) /
            ((a.w * a.h : ℤ) : ℚ) ≤ 1/2) ∧
    (merge_step [⟨90000, 1200, 100, 200, 300, 300, -1⟩]
        (⟨81200, 1140, 110, 205, 280, 290, -1⟩ : Contour) =
        [⟨90000, 1200, 100, 200, 300, 300, -1⟩] ∨
      merge_step [⟨90000, 1200, 100, 200, 300, 300, -1⟩]
        (⟨81200, 1140, 110, 205, 280, 290, -1⟩ : Contour) =
        [⟨90000, 1200, 100, 200, 300, 300, -1⟩] ++
          [⟨81200, 1140, 110, 205, 280, 290, -1⟩]) ∧
    merge_rects [⟨90000, 1200, 100, 200, 300, 300, -1⟩]
        [⟨81200, 1140, 110, 205, 280, 290, -1⟩]
      = [⟨90000, 1200, 100, 200, 300, 300, -1⟩] :=
  c3_consensus_merge [⟨90000, 1200, 100, 200, 300, 300, -1⟩]
    ⟨81200, 1140, 110, 205, 280, 290, -1⟩ (by norm_num)
    (by intro a ha; simp at ha; subst ha; norm_num)

/-! ## C6 — per-page error recovery in process_pdf -/

/-- C6: when building a page's region list fails, `process_pdf` still emits
that page as pass-through (original content, no overlay, no links, zero
regions), the output has exactly one page per input page, and every other
page whose region list builds successfully is processed normally. -/
theorem c6_page_failure_passthrough (cfg : SegmenterConfig)
    (load : ℕ → Except String Page) (num_pages k : ℕ) (msg : String)
    (hk : k < num_pages) (herr : load k = .error msg) :
    (process_pdf cfg load num_pages).length = num_pages ∧
    (process_pdf cfg load num_pages)[k]? = some .passthrough ∧
    (∀ j, ∀ page : Page, j < num_pages → load j = .ok page →
      (process_pdf cfg load num_pages)[j]? = some (.processed
        (relabel_regions cfg j (extract_article_regions cfg page (j == 0))))) := by
  refine ⟨by simp [process_pdf], ?_, ?_⟩
  · rw [process_pdf, List.getElem?_map (process_page cfg load) (List.range num_pages) k,
      List.getElem?_range hk]
    simp [process_page, herr]
  · intro j page hj hok
    rw [process_pdf, List.getElem?_map (process_page cfg load) (List.range num_pages) j,
      List.getElem?_range hj]
    simp [process_page, hok]

/-- Witness for C6: a two-page document whose first page fails to load and
whose second page loads as an empty page. -/
theorem c6_page_failure_passthrough_witness :
    (process_pdf (defaultSegmenterConfig "2024-05-01")
      (fun j => if j = 0 then .error "missing page object"
        else .ok ⟨1000, 1000, 1, [], []⟩) 2).length = 2 ∧
    (process_pdf (defaultSegmenterConfig "2024-05-01")
      (fun j => if j = 0 then .error "missing page object"
        else .ok ⟨1000, 1000, 1, [], []⟩) 2)[0]? = some .passthrough ∧
    (∀ j, ∀ page : Page, j < 2 →
      (fun j => if j = 0 then (.error "missing page object" : Except String Page)
        else .ok ⟨1000, 1000, 1, [], []⟩) j = .ok page →
      (process_pdf (defaultSegmenterConfig "2024-05-01")
        (fun j => if j = 0 then .error "missing page object"
          else .ok ⟨1000, 1000, 1, [], []⟩) 2)[j]? = some (.processed
        (relabel_regions (defaultSegmenterConfig "2024-05-01") j
          (extract_article_regions (defaultSegmenterConfig "2024-05-01") page (j == 0))))) :=
  c6_page_failure_passthrough (defaultSegmenterConfig "2024-05-01")
    (fun j => if j = 0 then .error "missing page object"
      else .ok ⟨1000, 1000, 1, [], []⟩) 2 0 "missing page object"
    (by norm_num) rfl

/-! ## C8 — per-page sequence numbering -/

/-- C8: the relabeling pass of `process_pdf` assigns label `article_{i+1}`
and a url embedding sequence number `i+1` to the region at 0-based position
`i` of a page's final candidate list, the numbering restarts at 1 for every
page because it depends only on that page's own list, and under the
metadata-based strategy the final list is the image-derived regions followed
by the table-derived regions, so tables continue the same positional
counter. -/
theorem c8_sequence_numbering (cfg : SegmenterConfig) (page_num : ℕ)
    (regions : List Region) (page : Page) (is_first_page : Bool)
    (r0 : Region) (rs : List Region) :
    (relabel_regions cfg page_num regions).length = regions.length ∧
    (∀ i : ℕ, (relabel_regions cfg page_num regions)[i]? =
      regions[i]?.map (fun r =>
        { r with label := "article_" ++ toString (i + 1)
                 url := generate_article_url cfg (page_num + 1) (i + 1) })) ∧
    ((relabel_regions cfg page_num (r0 :: rs))[0]?.map Region.label
      = some "article_1") ∧
    (extract_article_regions cfg page is_first_page =
      page.images.enum.filterMap (fun p => image_candidate_region cfg page
        (page.height * ((if is_first_page then cfg.first_page_margin_percent
          else cfg.other_pages_margin_percent) / 100)) p.1 p.2) ++
      page.tables.enum.filterMap (fun p => table_candidate_region cfg page
        (page.height * ((if is_first_page then cfg.first_page_margin_percent
          else cfg.other_pages_margin_percent) / 100)) page.images.length p.1 p.2)) := by
  refine ⟨by simp [relabel_regions], ?_, ?_, rfl⟩
  · intro i
    rw [relabel_regions,
      List.getElem?_map _ regions.enum i, List.getElem?_enum]
    cases regions[i]? <;> rfl
  · rw [relabel_regions, List.getElem?_map _ (r0 :: rs).enum 0, List.getElem?_enum]
    simp only [List.getElem?_cons_zero, Option.map_some]
    show some ("article_" ++ toString (0 + 1)) = some "article_1"
    decide

/-! ## Inversion lemmas for the metadata-based candidate filters -/

theorem image_candidate_region_some {cfg : SegmenterConfig} {page : Page}
    {top_margin : ℚ} {i : ℕ} {img : ImgObj} {r : Region}
    (h : image_candidate_region cfg page top_margin i img = some r) :
    r.box = ⟨img.x0, clamp_y0 img.top top_margin,
      img.x0 + img.width, img.top + img.height⟩ ∧
    r.original_box = ⟨img.x0, img.top, img.x0 + img.width, img.top + img.height⟩ ∧
    top_margin < img.top + img.height ∧
    cfg.min_area_ratio ≤
      (img.x0 + img.width - img.x0) *
        (img.top + img.height - clamp_y0 img.top top_margin) /
        (page.width * page.height) ∧
    (img.x0 + img.width - img.x0) *
        (img.top + img.height - clamp_y0 img.top top_margin) /
        (page.width * page.height) ≤ cfg.max_area_ratio := by
  simp only [image_candidate_region] at h
  split at h
  · exact absurd h (by simp)
  · rename_i h1
    split at h
    · exact absurd h (by simp)
    · rename_i h2
      split at h
      · exact absurd h (by simp)
      · push_neg at h1 h2
        obtain rfl : _ = r := Option.some.inj h
        exact ⟨rfl, rfl, h1, h2.1, h2.2⟩

theorem table_candidate_region_some {cfg : SegmenterConfig} {page : Page}
    {top_margin : ℚ} {num_images i : ℕ} {t : Box} {rt : Region}
    (h : table_candidate_region cfg page top_margin num_images i t = some rt) :
    rt.box = ⟨t.x0, clamp_y0 t.y0 top_margin, t.x1, t.y1⟩ ∧
    rt.original_box = ⟨t.x0, clamp_y0 t.y0 top_margin, t.x1, t.y1⟩ ∧
    top_margin < t.y1 ∧
    cfg.min_area_ratio ≤
      (t.x1 - t.x0) * (t.y1 - clamp_y0 t.y0 top_margin) /
        (page.width * page.height) ∧
    (t.x1 - t.x0) * (t.y1 - clamp_y0 t.y0 top_margin) /
        (page.width * page.height) ≤ cfg.max_area_ratio := by
  simp only [table_candidate_region] at h
  split at h
  · exact absurd h (by simp)
  · rename_i h1
    split at h
    · exact absurd h (by simp)
    · rename_i h2
      split at h
      · exact absurd h (by simp)
      · push_neg at h1 h2
        obtain rfl : _ = rt := Option.some.inj h
        exact ⟨rfl, rfl, h1, h2.1, h2.2⟩

/-! ## C2 (amended) — clamping behaviour per candidate kind -/

/-- C2 (amended): an image-derived candidate straddling the top margin is
clamped and its `original_box` keeps the unclamped rectangle; a
table-derived candidate straddling the margin is clamped but its
`original_box` equals the clamped box; a pixel-based candidate whose top
edge lies above the margin is dropped entirely (never clamped): every
emitted rectangle is an unmodified input contour with `ignore_height ≤ y`. -/
theorem c2_margin_clamping (cfg : SegmenterConfig) (page : Page)
    (top_margin : ℚ) (i num_images : ℕ) (img : ImgObj) (t : Box) (r rt : Region)
    (contours : List Contour) (img_w img_h ignore_height : ℤ)
    (himg : img.top < top_margin) (ht : t.y0 < top_margin) :
    (image_candidate_region cfg page top_margin i img = some r →
      r.box = ⟨img.x0, top_margin, img.x0 + img.width, img.top + img.height⟩ ∧
      r.original_box = ⟨img.x0, img.top, img.x0 + img.width, img.top + img.height⟩) ∧
    (table_candidate_region cfg page top_margin num_images i t = some rt →
      rt.box = ⟨t.x0, top_margin, t.x1, t.y1⟩ ∧ rt.original_box = rt.box) ∧
    (∀ c ∈ detect_articles_with_technique contours img_w img_h ignore_height,
      ignore_height ≤ c.y ∧ c ∈ contours) := by
  refine ⟨?_, ?_, ?_⟩
  · intro h
    obtain ⟨hbox, horig, -, -, -⟩ := image_candidate_region_some h
    rw [clamp_y0_of_lt himg] at hbox
    exact ⟨hbox, horig⟩
  · intro h
    obtain ⟨hbox, horig, -, -, -⟩ := table_candidate_region_some h
    rw [clamp_y0_of_lt ht] at hbox horig
    exact ⟨hbox, horig.trans hbox.symm⟩
  · intro c hc
    obtain ⟨hmem, -, hy⟩ := mem_detect_props hc
    exact ⟨hy, hmem⟩

/-- The region emitted for the straddling image candidate of the C2
witness. -/
def c2_image_region : Region :=
  { score := 1
    label := "article_0"
    box := ⟨0, 145, 200, 300⟩
    original_box := ⟨0, 100, 200, 300⟩
    url := "https://epaper-article-db.s3.ap-south-1.amazonaws.com/epaper-articles/2024/20240501/page1-article1.jpg" }

/-- The region emitted for the straddling table candidate of the C2
witness. -/
def c2_table_region : Region :=
  { score := 9/10
    label := "table_article_0"
    box := ⟨0, 145, 200, 300⟩
    original_box := ⟨0, 145, 200, 300⟩
    url := "https://epaper-article-db.s3.ap-south-1.amazonaws.com/epaper-articles/2024/20240501/page1-article1.jpg" }

/-- Witness for the amended C2 at the claim's concrete data: the candidate
box `[0,100,200,300]` on a 1000 by 1000 page with topMargin 145, as an image
object, a table bounding box and a contour list. -/
theorem c2_margin_clamping_witness :
    (image_candidate_region (defaultSegmenterConfig "2024-05-01")
        ⟨1000, 1000, 0, [], []⟩ 145 0 ⟨0, 100, 200, 200⟩ = some c2_image_region →
      c2_image_region.box = ⟨0, 145, 0 + 200, 100 + 200⟩ ∧
      c2_image_region.original_box = ⟨0, 100, 0 + 200, 100 + 200⟩) ∧
    (table_candidate_region (defaultSegmenterConfig "2024-05-01")
        ⟨1000, 1000, 0, [], []⟩ 145 0 0 ⟨0, 100, 200, 300⟩ = some c2_table_region →
      c2_table_region.box = ⟨0, 145, 200, 300⟩ ∧
      c2_table_region.original_box = c2_table_region.box) ∧
    (∀ c ∈ detect_articles_with_technique [⟨40000, 1200, 0, 100, 200, 200, -1⟩]
        1000 1000 145,
      (145 : ℤ) ≤ c.y ∧ c ∈ [⟨40000, 1200, 0, 100, 200, 200, -1⟩]) :=
  c2_margin_clamping (defaultSegmenterConfig "2024-05-01") ⟨1000, 1000, 0, [], []⟩
    145 0 0 ⟨0, 100, 200, 200⟩ ⟨0, 100, 200, 300⟩ c2_image_region c2_table_region
    [⟨40000, 1200, 0, 100, 200, 200, -1⟩] 1000 1000 145
    (by norm_num) (by norm_num)

/-! ## C9 — nothing entirely above the top margin survives -/

/-- C9: every region emitted by the metadata-based strategy has
`box.y1 > topMargin`; every rectangle emitted by the pixel-based strategy
has bottom edge `y + h > ignoreHeight` (given positive contour heights, as
`cv2.boundingRect` guarantees); and the concrete candidate `[0,0,200,100]`
on a page of height 1000 with margin 145 is dropped by the image filter, the
table filter and the pixel pipeline alike. -/
theorem c9_margin_exclusion (cfg : SegmenterConfig) (page : Page)
    (is_first_page : Bool) (contours : List Contour)
    (img_w img_h ignore_height : ℤ)
    (hcont : ∀ c ∈ contours, 0 < c.h) :
    (∀ r ∈ extract_article_regions cfg page is_first_page,
      page.height * ((if is_first_page then cfg.first_page_margin_percent
        else cfg.other_pages_margin_percent) / 100) < r.box.y1) ∧
    (∀ c ∈ detect_articles_with_technique contours img_w img_h ignore_height,
      ignore_height < c.y + c.h) ∧
    (image_candidate_region (defaultSegmenterConfig "2024-05-01")
      ⟨1000, 1000, 0, [], []⟩ 145 0 ⟨0, 0, 200, 100⟩ = none) ∧
    (table_candidate_region (defaultSegmenterConfig "2024-05-01")
      ⟨1000, 1000, 0, [], []⟩ 145 0 0 ⟨0, 0, 200, 100⟩ = none) ∧
    (detect_articles_with_technique [⟨40000, 600, 0, 0, 200, 100, -1⟩]
      1000 1000 145 = []) := by
  refine ⟨?_, ?_, ?_, ?_, ?_⟩
  · intro r hr
    simp only [extract_article_regions] at hr
    rcases List.mem_append.mp hr with hr | hr
    · obtain ⟨p, hp, hsome⟩ := List.mem_filterMap.mp hr
      obtain ⟨hbox, -, hy1, -, -⟩ := image_candidate_region_some hsome
      rw [hbox]
      exact hy1
    · obtain ⟨p, hp, hsome⟩ := List.mem_filterMap.mp hr
      obtain ⟨hbox, -, hy1, -, -⟩ := table_candidate_region_some hsome
      rw [hbox]
      exact hy1
  · intro c hc
    obtain ⟨hmem, -, hy⟩ := mem_detect_props hc
    have hh := hcont c hmem
    omega
  · norm_num [image_candidate_region, clamp_y0]
  · norm_num [table_candidate_region, clamp_y0]
  · norm_num [detect_articles_with_technique, closed_contour_filter,
      filter_contained_rects, List.enum, List.enumFrom]

/-- Witness for C9 at a concrete page, margin configuration and contour
list. -/
theorem c9_margin_exclusion_witness :
    (∀ r ∈ extract_article_regions (defaultSegmenterConfig "2024-05-01")
        ⟨1000, 1000, 0, [⟨100, 200, 300, 300⟩], []⟩ true,
      (1000 : ℚ) * ((if true then
        (defaultSegmenterConfig "2024-05-01").first_page_margin_percent
        else (defaultSegmenterConfig "2024-05-01").other_pages_margin_percent) / 100)
        < r.box.y1) ∧
    (∀ c ∈ detect_articles_with_technique [⟨40000, 1200, 0, 300, 200, 200, -1⟩]
        1000 1000 145, (145 : ℤ) < c.y + c.h) ∧
    (image_candidate_region (defaultSegmenterConfig "2024-05-01")
      ⟨1000, 1000, 0, [], []⟩ 145 0 ⟨0, 0, 200, 100⟩ = none) ∧
    (table_candidate_region (defaultSegmenterConfig "2024-05-01")
      ⟨1000, 1000, 0, [], []⟩ 145 0 0 ⟨0, 0, 200, 100⟩ = none) ∧
    (detect_articles_with_technique [⟨40000, 600, 0, 0, 200, 100, -1⟩]
      1000 1000 145 = []) := by
  have h := c9_margin_exclusion (defaultSegmenterConfig "2024-05-01")
    ⟨1000, 1000, 0, [⟨100, 200, 300, 300⟩], []⟩ true
    [⟨40000, 1200, 0, 300, 200, 200, -1⟩] 1000 1000 145
    (by intro c hc; simp at hc; subst hc; norm_num)
  exact h

/-! ## C4 — a full-page candidate is always rejected -/

/-- C4: `_calculate_page_coverage` equals 1 minus the average of the four
normalized absolute edge distances; and for every page and every choice of
the area-ratio bounds, a candidate equal to the full page rectangle
`[0,0,W,H]` is rejected by both metadata-based filters under the default
margin configuration: after clamping, its coverage is `1 - m/400 > 0.9`
(with `m` the margin percentage, 14.5 or 8.5), so no region is emitted. -/
theorem c4_full_page_rejected (page : Page) (min_area_ratio max_area_ratio : ℚ)
    (date : String) (is_first_page : Bool) (i num_images : ℕ)
    (hh : 0 < page.height) :
    (∀ region_box page_box : Box,
      calculate_page_coverage region_box page_box =
        1 - (|region_box.x0 - page_box.x0| / (page_box.x1 - page_box.x0) +
          |region_box.x1 - page_box.x1| / (page_box.x1 - page_box.x0) +
          |region_box.y0 - page_box.y0| / (page_box.y1 - page_box.y0) +
          |region_box.y1 - page_box.y1| / (page_box.y1 - page_box.y0)) / 4) ∧
    (calculate_page_coverage
        ⟨0, page.height * ((if is_first_page then (29:ℚ)/2 else 17/2) / 100),
          page.width, page.height⟩
        ⟨0, 0, page.width, page.height⟩ > 9/10) ∧
    (image_candidate_region
        (mkNewspaperArticleSegmenter min_area_ratio max_area_ratio (29/2) (17/2) date)
        page (page.height * ((if is_first_page then (29:ℚ)/2 else 17/2) / 100)) i
        ⟨0, 0, page.width, page.height⟩ = none) ∧
    (table_candidate_region
        (mkNewspaperArticleSegmenter min_area_ratio max_area_ratio (29/2) (17/2) date)
        page (page.height * ((if is_first_page then (29:ℚ)/2 else 17/2) / 100)) num_images i
        ⟨0, 0, page.width, page.height⟩ = none) := by
  set m : ℚ := if is_first_page then (29:ℚ)/2 else 17/2 with hm_def
  have hm0 : 0 < m := by rw [hm_def]; split <;> norm_num
  have hm40 : m < 40 := by rw [hm_def]; split <;> norm_num
  have htm0 : 0 < page.height * (m / 100) := by positivity
  have hdiv : page.height * (m / 100) / page.height = m / 100 := by
    rw [mul_comm, mul_div_assoc, div_self (ne_of_gt hh), mul_one]
  have hcov : calculate_page_coverage
      ⟨0, page.height * (m / 100), page.width, page.height⟩
      ⟨0, 0, page.width, page.height⟩ = 1 - m / 100 / 4 := by
    simp only [calculate_page_coverage, sub_zero, sub_self, abs_zero, zero_div,
      add_zero, zero_add]
    rw [abs_of_pos htm0, hdiv]
  have hgt : (1 : ℚ) - m / 100 / 4 > 9/10 := by linarith
  refine ⟨fun region_box page_box => rfl, by rw [hcov]; exact hgt, ?_, ?_⟩
  · simp only [image_candidate_region]
    split
    · rfl
    · split
      · rfl
      · split
        · rfl
        · rename_i hc
          exfalso
          rw [zero_add, zero_add, clamp_y0_of_lt htm0, hcov] at hc
          exact hc hgt
  · simp only [table_candidate_region]
    split
    · rfl
    · split
      · rfl
      · split
        · rfl
        · rename_i hc
          exfalso
          rw [clamp_y0_of_lt htm0, hcov] at hc
          exact hc hgt

/-- Witness for C4 at a concrete page, area-ratio bounds and margin
selection. -/
theorem c4_full_page_rejected_witness :
    (∀ region_box page_box : Box,
      calculate_page_coverage region_box page_box =
        1 - (|region_box.x0 - page_box.x0| / (page_box.x1 - page_box.x0) +
          |region_box.x1 - page_box.x1| / (page_box.x1 - page_box.x0) +
          |region_box.y0 - page_box.y0| / (page_box.y1 - page_box.y0) +
          |region_box.y1 - page_box.y1| / (page_box.y1 - page_box.y0)) / 4) ∧
    (calculate_page_coverage
        ⟨0, (1000 : ℚ) * ((if true then (29:ℚ)/2 else 17/2) / 100), 800, 1000⟩
        ⟨0, 0, 800, 1000⟩ > 9/10) ∧
    (image_candidate_region
        (mkNewspaperArticleSegmenter (1/100) (17/20) (29/2) (17/2) "2024-05-01")
        ⟨800, 1000, 0, [], []⟩
        ((1000 : ℚ) * ((if true then (29:ℚ)/2 else 17/2) / 100)) 0
        ⟨0, 0, 800, 1000⟩ = none) ∧
    (table_candidate_region
        (mkNewspaperArticleSegmenter (1/100) (17/20) (29/2) (17/2) "2024-05-01")
        ⟨800, 1000, 0, [], []⟩
        ((1000 : ℚ) * ((if true then (29:ℚ)/2 else 17/2) / 100)) 0 0
        ⟨0, 0, 800, 1000⟩ = none) :=
  c4_full_page_rejected ⟨800, 1000, 0, [], []⟩ (1/100) (17/20) "2024-05-01"
    true 0 0 (by norm_num)

/-! ## C1 (amended) — per-strategy area filters -/

theorem candidate_box_pos {min_area_ratio w_times_h x0 y0c x1 y1 : ℚ}
    (hmin : 0 < min_area_ratio) (hWH : 0 < w_times_h) (hy0 : 0 ≤ y1 - y0c)
    (hlo : min_area_ratio ≤ (x1 - x0) * (y1 - y0c) / w_times_h) :
    x0 < x1 ∧ y0c < y1 := by
  have hA : 0 < (x1 - x0) * (y1 - y0c) / w_times_h := lt_of_lt_of_le hmin hlo
  have hnum : 0 < (x1 - x0) * (y1 - y0c) := by
    rcases div_pos_iff.mp hA with ⟨h1, _⟩ | ⟨_, h2⟩
    · exact h1
    · linarith
  have hy : 0 < y1 - y0c := by
    rcases eq_or_lt_of_le hy0 with h | h
    · exfalso
      rw [← h] at hnum
      simp at hnum
    · exact h
  have hx : 0 < x1 - x0 := by
    rcases mul_pos_iff.mp hnum with ⟨h1, _⟩ | ⟨_, h2⟩
    · exact h1
    · linarith
  exact ⟨by linarith, by linarith⟩

/-- C1 (amended): under the metadata-based strategy every emitted region's
box is well formed (`x0 < x1`, `y0 < y1`) and its area divided by the page
area lies in `[min_area_ratio, max_area_ratio]` (given a positive lower
bound, positive page dimensions, and the pdfplumber input invariants that
image objects have nonnegative height and table boxes satisfy `y0 ≤ y1`).
The pixel-based strategy does not apply this ratio filter: it bounds the
*contour* area within `[30000, 0.9 * imageArea]` instead, and its emitted
bounding boxes can violate the metadata bounds (see `c1_counterexample`). -/
theorem c1_area_ratio_bounds (cfg : SegmenterConfig) (page : Page)
    (is_first_page : Bool) (contours : List Contour)
    (img_w img_h ignore_height : ℤ)
    (hmin : 0 < cfg.min_area_ratio) (hw : 0 < page.width) (hh : 0 < page.height)
    (himages : ∀ img ∈ page.images, 0 ≤ img.height)
    (htables : ∀ t ∈ page.tables, t.y0 ≤ t.y1) :
    (∀ r ∈ extract_article_regions cfg page is_first_page,
      r.box.x0 < r.box.x1 ∧ r.box.y0 < r.box.y1 ∧
      cfg.min_area_ratio ≤
        (r.box.x1 - r.box.x0) * (r.box.y1 - r.box.y0) / (page.width * page.height) ∧
      (r.box.x1 - r.box.x0) * (r.box.y1 - r.box.y0) / (page.width * page.height)
        ≤ cfg.max_area_ratio) ∧
    (∀ c ∈ detect_articles_with_technique contours img_w img_h ignore_height,
      30000 ≤ c.area ∧ c.area ≤ ((img_w * img_h : ℤ) : ℚ) * (9/10)) := by
  have hWH : 0 < page.width * page.height := mul_pos hw hh
  constructor
  · intro r hr
    simp only [extract_article_regions] at hr
    rcases List.mem_append.mp hr with hr | hr
    · obtain ⟨p, hp, hsome⟩ := List.mem_filterMap.mp hr
      obtain ⟨hbox, -, hy1, hlo, hhi⟩ := image_candidate_region_some hsome
      have hy0 : 0 ≤ p.2.top + p.2.height -
          clamp_y0 p.2.top (page.height * ((if is_first_page then
            cfg.first_page_margin_percent else cfg.other_pages_margin_percent) / 100)) := by
        rcases lt_or_le p.2.top (page.height * ((if is_first_page then
            cfg.first_page_margin_percent else cfg.other_pages_margin_percent) / 100))
          with hcl | hcl
        · rw [clamp_y0_of_lt hcl]
          linarith
        · rw [clamp_y0_of_not_lt (not_lt.mpr hcl)]
          have hht := himages p.2 (snd_mem_of_mem_enum hp)
          linarith
      obtain ⟨hx, hy⟩ := candidate_box_pos hmin hWH hy0 hlo
      simp only [hbox]
      exact ⟨hx, hy, hlo, hhi⟩
    · obtain ⟨p, hp, hsome⟩ := List.mem_filterMap.mp hr
      obtain ⟨hbox, -, hy1, hlo, hhi⟩ := table_candidate_region_some hsome
      have hy0 : 0 ≤ p.2.y1 -
          clamp_y0 p.2.y0 (page.height * ((if is_first_page then
            cfg.first_page_margin_percent else cfg.other_pages_margin_percent) / 100)) := by
        rcases lt_or_le p.2.y0 (page.height * ((if is_first_page then
            cfg.first_page_margin_percent else cfg.other_pages_margin_percent) / 100))
          with hcl | hcl
        · rw [clamp_y0_of_lt hcl]
          linarith
        · rw [clamp_y0_of_not_lt (not_lt.mpr hcl)]
          have hht := htables p.2 (snd_mem_of_mem_enum hp)
          linarith
      obtain ⟨hx, hy⟩ := candidate_box_pos hmin hWH hy0 hlo
      simp only [hbox]
      exact ⟨hx, hy, hlo, hhi⟩
  · intro c hc
    obtain ⟨-, hfilt, -⟩ := mem_detect_props hc
    simp only [closed_contour_filter, Bool.and_eq_true, Bool.not_eq_true',
      Bool.or_eq_false_iff, decide_eq_true_eq, decide_eq_false_iff_not] at hfilt
    obtain ⟨⟨⟨-, hb1, hb2⟩, -⟩, -⟩ := hfilt
    exact ⟨le_of_not_lt hb1, le_of_not_gt hb2⟩

/-- Witness for the amended C1 at a concrete configuration, page and contour
list. -/
theorem c1_area_ratio_bounds_witness :
    (∀ r ∈ extract_article_regions (defaultSegmenterConfig "2024-05-01")
        ⟨1000, 1000, 0, [⟨100, 200, 300, 300⟩], [⟨50, 400, 350, 700⟩]⟩ true,
      r.box.x0 < r.box.x1 ∧ r.box.y0 < r.box.y1 ∧
      (defaultSegmenterConfig "2024-05-01").min_area_ratio ≤
        (r.box.x1 - r.box.x0) * (r.box.y1 - r.box.y0) / ((1000 : ℚ) * 1000) ∧
      (r.box.x1 - r.box.x0) * (r.box.y1 - r.box.y0) / ((1000 : ℚ) * 1000)
        ≤ (defaultSegmenterConfig "2024-05-01").max_area_ratio) ∧
    (∀ c ∈ detect_articles_with_technique [⟨40000, 1200, 0, 300, 200, 200, -1⟩]
        1000 1000 145,
      (30000 : ℚ) ≤ c.area ∧ c.area ≤ ((1000 * 1000 : ℤ) : ℚ) * (9/10)) :=
  c1_area_ratio_bounds (defaultSegmenterConfig "2024-05-01")
    ⟨1000, 1000, 0, [⟨100, 200, 300, 300⟩], [⟨50, 400, 350, 700⟩]⟩ true
    [⟨40000, 1200, 0, 300, 200, 200, -1⟩] 1000 1000 145
    (by norm_num [defaultSegmenterConfig, mkNewspaperArticleSegmenter])
    (by norm_num) (by norm_num)
    (by intro img himg; simp at himg; subst himg; norm_num)
    (by intro t htb; simp at htb; subst htb; norm_num)

end EpaperAutomation
